import Mathlib

/-!
Shallow embedding of `scripts/pick_open_reference_otus.py` (QIIME).

The script's `main()` is modelled as a pure function from the parsed
command-line options plus a small environment (whether the parameter file
can be opened, the outcome of `os.makedirs`, the pre-existing files of the
output directory) to a run result: which errors were raised, whether the
directory-creation call was attempted, the resulting directory content,
and — on success — the exact workflow invocation (driver choice plus the
full keyword-argument record forwarded to it).

Python floats are modelled as rationals: the script only zero-tests
`prefilter_percent_id` and passes the float options through unchanged, so
no rounding behaviour is observable.  `option_parser.error` and an
uncaught `IOError` both terminate the process with a non-zero exit status;
they are modelled by the `MainError` sum.  Error-message strings are kept
close to the source text (apostrophes elided).
-/

namespace PickOpenReferenceOtus

/-- Parsed command-line options of the script, one field per `make_option`
declaration (plus the standard `verbose` flag added by
`parse_command_line_parameters`).  `parameter_fp`, `prefilter_refseqs_fp`,
`step1_otu_map_fp` and `step1_failures_fasta_fp` are optional paths
(`None` when absent); `jobs_to_start` is `none` when the option was left
at its default. -/
structure CLIOptions where
  input_fps : List String
  reference_fp : String
  output_dir : String
  otu_picking_method : String
  parameter_fp : Option String
  prefilter_refseqs_fp : Option String
  new_ref_set_id : String
  force : Bool
  parallel : Bool
  jobs_to_start : Option Int
  percent_subsample : Rat
  prefilter_percent_id : Rat
  step1_otu_map_fp : Option String
  step1_failures_fasta_fp : Option String
  suppress_step4 : Bool
  min_otu_size : Int
  suppress_taxonomy_assignment : Bool
  suppress_align_and_tree : Bool
  verbose : Bool
deriving DecidableEq

/-- Default of `-m, --otu_picking_method` (`default='uclust'`). -/
def default_otu_picking_method : String := "uclust"

/-- Default of `-n, --new_ref_set_id` (`default='New'`). -/
def default_new_ref_set_id : String := "New"

/-- Default of `-s, --percent_subsample` (`default='0.001'`). -/
def default_percent_subsample : Rat := 1 / 1000

/-- Default of `--prefilter_percent_id` (`default='0.60'`). -/
def default_prefilter_percent_id : Rat := 60 / 100

/-- Default of `--suppress_step4` (`default=False`). -/
def default_suppress_step4 : Bool := false

/-- Default of `--min_otu_size` (`default=2`). -/
def default_min_otu_size : Int := 2

/-- Default of `--suppress_taxonomy_assignment` (`default=False`). -/
def default_suppress_taxonomy_assignment : Bool := false

/-- Default of `--suppress_align_and_tree` (`default=False`). -/
def default_suppress_align_and_tree : Bool := false

/-- The `choices` list of the `-m, --otu_picking_method` option
(`choices=['uclust', 'usearch61']`). -/
def otu_picking_method_choices : List String := ["uclust", "usearch61"]

/-- Semantics of an optparse option with `type='choice'`: during option
parsing the supplied value is accepted exactly when it is one of the
declared choices; every other value makes the parser exit with an error
before `main`'s body runs. -/
def parse_choice (choices : List String) (value : String) : Option String :=
  if value ∈ choices then some value else none

/-- The `if/elif/else` dispatch on `otu_picking_method` in `main`
(script lines 330-339): `uclust` maps to the pair
`(denovo, reference) = (uclust, uclust_ref)`, `usearch61` to
`(usearch61, usearch61_ref)`, and anything else reaches the
`option_parser.error` branch (modelled as `none`). -/
def resolve_method_binding (otu_picking_method : String) :
    Option (String × String) :=
  if otu_picking_method = "uclust" then some ("uclust", "uclust_ref")
  else if otu_picking_method = "usearch61" then some ("usearch61", "usearch61_ref")
  else none

/-- Kind of `OSError` raised by `os.makedirs`: directory already exists,
permission denied, missing parent, or any other errno. -/
inductive OSErrorKind where
  | eexist
  | eacces
  | enoent
  | other (errno : Nat)
deriving DecidableEq

/-- Environment of one run: the lines of the parameter file if it can be
opened (`none` models `open` raising `IOError`), the outcome of the
`os.makedirs(output_dir)` call (`some k` models `OSError` of kind `k`),
and the files already present in the output directory. -/
structure Env where
  param_file_lines : Option (List String)
  makedirs_error : Option OSErrorKind
  output_dir_files : List String
deriving DecidableEq

/-- Terminal configuration failures of `main`.  `io_error p` models
`raise IOError(...)` naming path `p` (uncaught, so the process exits
non-zero); `option_parser_error msg` models `option_parser.error(msg)`
(prints the message and exits with status 2). -/
inductive MainError where
  | io_error (path : String)
  | option_parser_error (msg : String)
deriving DecidableEq

/-- Message of the `option_parser.error` in the unreachable method branch
(source spelling, including the typo). -/
def unknown_method_message : String := "Unkown OTU picking method"

/-- Message of the `option_parser.error` raised when `makedirs` fails and
`--force` was not given. -/
def dir_exists_message : String :=
  "Output directory already exists. Please choose a different directory, or force overwrite with -f."

/-- Message of the `option_parser.error` raised by the jobs validation. -/
def jobs_require_parallel_message : String :=
  "Passing -O requires that -a is also passed."

/-- Modelled from the spec: `parse_qiime_parameters` (qiime/parse.py, not
among this repository's source files) turns the lines of a parameter file
into a key-to-value configuration mapping, ignoring blank lines and
comment lines; an empty sequence of lines yields the all-defaults (empty)
mapping.  The exact line syntax is irrelevant to the claims, which only
compare whole parses. -/
def parse_qiime_parameters (lines : List String) : List (String × String) :=
  lines.filterMap fun line =>
    if line = "" then none
    else if line.startsWith "#" then none
    else
      match line.splitOn " " with
      | [] => none
      | key :: rest => some (key, String.intercalate " " rest)

/-- Modelled from the spec: `validate_and_set_jobs_to_start`
(qiime/workflow/util.py, not among this repository's source files)
validates the worker count against the parallel flag at configuration
time: overriding the default jobs-to-start without the parallel flag is a
configuration error. -/
def validate_and_set_jobs_to_start (jobs_to_start : Option Int)
    (parallel : Bool) : Except MainError Unit :=
  match jobs_to_start with
  | some _ =>
    if parallel then Except.ok ()
    else Except.error (MainError.option_parser_error jobs_require_parallel_message)
  | none => Except.ok ()

/-- Script lines 346-356: when a parameter filepath was supplied, opening
it either yields its lines (parsed by `parse_qiime_parameters`) or raises
an `IOError` naming the path; when no filepath was supplied the
parameters are parsed from the empty input. -/
def params_step (parameter_fp : Option String)
    (param_file_lines : Option (List String)) :
    Except MainError (List (String × String)) :=
  match parameter_fp with
  | some fp =>
    match param_file_lines with
    | some lines => Except.ok (parse_qiime_parameters lines)
    | none => Except.error (MainError.io_error fp)
  | none => Except.ok (parse_qiime_parameters [])

/-- Effect of `os.makedirs` on the files already present in the output
directory: it only ever creates directories, so the pre-existing files
are unchanged whether it succeeds or raises `OSError`. -/
def files_after_makedirs (files : List String)
    (result : Option OSErrorKind) : List String :=
  match result with
  | some _ => files
  | none => files

/-- The two command handlers imported by the script
(qiime/workflow/util.py): immediate serial execution, or the dry-run
handler that prints the commands without executing them. -/
inductive CommandHandler where
  | call_commands_serially
  | print_commands
deriving DecidableEq

/-- Script lines 372-375: the command handler is the dry-run printer when
`print_only` holds and the serial executor otherwise. -/
def select_command_handler (print_only : Bool) : CommandHandler :=
  if print_only then CommandHandler.print_commands
  else CommandHandler.call_commands_serially

/-- The two status-update callbacks (script lines 377-380). -/
inductive StatusUpdateCallback where
  | print_to_stdout
  | no_status_updates
deriving DecidableEq

/-- Script lines 377-380: verbose selects stdout status updates. -/
def select_status_update_callback (verbose : Bool) : StatusUpdateCallback :=
  if verbose then StatusUpdateCallback.print_to_stdout
  else StatusUpdateCallback.no_status_updates

/-- Script lines 327-328: a `prefilter_percent_id` of exactly `0.0` is
replaced by `None` before being forwarded to the workflow. -/
def prefilter_percent_id_arg (prefilter_percent_id : Rat) : Option Rat :=
  if prefilter_percent_id = 0 then none else some prefilter_percent_id

/-- The full keyword-argument record forwarded to the workflow functions
(everything except the input filepath(s), which select the driver). -/
structure WorkflowConfig where
  refseqs_fp : String
  output_dir : String
  percent_subsample : Rat
  new_ref_set_id : String
  command_handler : CommandHandler
  params : List (String × String)
  min_otu_size : Int
  run_assign_tax : Bool
  run_align_and_tree : Bool
  prefilter_refseqs_fp : Option String
  prefilter_percent_id : Option Rat
  step1_otu_map_fp : Option String
  step1_failures_fasta_fp : Option String
  parallel : Bool
  suppress_step4 : Bool
  denovo_otu_picking_method : String
  reference_otu_picking_method : String
  status_update_callback : StatusUpdateCallback
deriving DecidableEq

/-- Keyword arguments of the `pick_subsampled_open_reference_otus` call
(script lines 383-398), transcribed argument by argument. -/
def single_call_config (opts : CLIOptions) (params : List (String × String))
    (command_handler : CommandHandler) (prefilter_percent_id : Option Rat)
    (denovo_otu_picking_method reference_otu_picking_method : String)
    (status_update_callback : StatusUpdateCallback) : WorkflowConfig :=
  { refseqs_fp := opts.reference_fp
    output_dir := opts.output_dir
    percent_subsample := opts.percent_subsample
    new_ref_set_id := opts.new_ref_set_id
    command_handler := command_handler
    params := params
    min_otu_size := opts.min_otu_size
    run_assign_tax := !opts.suppress_taxonomy_assignment
    run_align_and_tree := !opts.suppress_align_and_tree
    prefilter_refseqs_fp := opts.prefilter_refseqs_fp
    prefilter_percent_id := prefilter_percent_id
    step1_otu_map_fp := opts.step1_otu_map_fp
    step1_failures_fasta_fp := opts.step1_failures_fasta_fp
    parallel := opts.parallel
    suppress_step4 := opts.suppress_step4
    denovo_otu_picking_method := denovo_otu_picking_method
    reference_otu_picking_method := reference_otu_picking_method
    status_update_callback := status_update_callback }

/-- Keyword arguments of the
`iterative_pick_subsampled_open_reference_otus` call (script lines
400-415), transcribed argument by argument. -/
def iterative_call_config (opts : CLIOptions) (params : List (String × String))
    (command_handler : CommandHandler) (prefilter_percent_id : Option Rat)
    (denovo_otu_picking_method reference_otu_picking_method : String)
    (status_update_callback : StatusUpdateCallback) : WorkflowConfig :=
  { refseqs_fp := opts.reference_fp
    output_dir := opts.output_dir
    percent_subsample := opts.percent_subsample
    new_ref_set_id := opts.new_ref_set_id
    command_handler := command_handler
    params := params
    min_otu_size := opts.min_otu_size
    run_assign_tax := !opts.suppress_taxonomy_assignment
    run_align_and_tree := !opts.suppress_align_and_tree
    prefilter_refseqs_fp := opts.prefilter_refseqs_fp
    prefilter_percent_id := prefilter_percent_id
    step1_otu_map_fp := opts.step1_otu_map_fp
    step1_failures_fasta_fp := opts.step1_failures_fasta_fp
    parallel := opts.parallel
    suppress_step4 := opts.suppress_step4
    denovo_otu_picking_method := denovo_otu_picking_method
    reference_otu_picking_method := reference_otu_picking_method
    status_update_callback := status_update_callback }

/-- A workflow invocation: either the single-input driver on one filepath
or the iterative driver on the full list of filepaths, each with its
keyword-argument record. -/
inductive WorkflowInvocation where
  | single (input_fp : String) (cfg : WorkflowConfig)
  | iterative (input_fps : List String) (cfg : WorkflowConfig)
deriving DecidableEq

/-- The configuration record of an invocation, whichever driver. -/
def WorkflowInvocation.cfg : WorkflowInvocation → WorkflowConfig
  | WorkflowInvocation.single _ c => c
  | WorkflowInvocation.iterative _ c => c

/-- Script lines 382-415: dispatch on `len(input_fps)` — a single
filepath invokes the single-input driver on `input_fps[0]`, any other
length invokes the iterative driver on the whole list.  `print_only` is
the local hard-coded to `False` at line 322 (the `-w, --print_only` option
is commented out in the source). -/
def dispatch_workflow (opts : CLIOptions) (params : List (String × String))
    (prefilter_percent_id : Option Rat)
    (denovo_otu_picking_method reference_otu_picking_method : String)
    (print_only : Bool) : WorkflowInvocation :=
  match opts.input_fps with
  | [input_fp] =>
    WorkflowInvocation.single input_fp
      (single_call_config opts params (select_command_handler print_only)
        prefilter_percent_id denovo_otu_picking_method
        reference_otu_picking_method
        (select_status_update_callback opts.verbose))
  | input_fps =>
    WorkflowInvocation.iterative input_fps
      (iterative_call_config opts params (select_command_handler print_only)
        prefilter_percent_id denovo_otu_picking_method
        reference_otu_picking_method
        (select_status_update_callback opts.verbose))

deriving instance DecidableEq for Except

/-- Result of one run of `main`: whether the `makedirs` call was reached,
the resulting content of the output directory, and either a terminal
configuration error (process exits non-zero, no workflow function is
called, hence no external operation is invoked) or the workflow
invocation performed. -/
structure RunResult where
  makedirs_attempted : Bool
  output_dir_files : List String
  outcome : Except MainError WorkflowInvocation
deriving DecidableEq

/-- Successful continuation of `main` past the `makedirs` try/except:
the workflow is dispatched, and the output-directory files are whatever
`makedirs` left them (it never removes files). -/
def dispatch_result (opts : CLIOptions) (env : Env)
    (params : List (String × String))
    (denovo_otu_picking_method reference_otu_picking_method : String) :
    RunResult :=
  { makedirs_attempted := true
    output_dir_files := files_after_makedirs env.output_dir_files env.makedirs_error
    outcome := Except.ok (dispatch_workflow opts params
      (prefilter_percent_id_arg opts.prefilter_percent_id)
      denovo_otu_picking_method reference_otu_picking_method false) }

/-- Continuation of `makedirs_and_dispatch` on the error path. -/
def makedirs_error_result (env : Env) : RunResult :=
  { makedirs_attempted := true
    output_dir_files := files_after_makedirs env.output_dir_files env.makedirs_error
    outcome := Except.error (MainError.option_parser_error dir_exists_message) }

/-- Stages of `main` from the `makedirs` try/except on (script lines
363-415), given the already-computed parameters and method bindings: on
`OSError` the run proceeds when `--force` was given and otherwise exits
through `option_parser.error`; on success (or forced continuation) the
workflow is dispatched. -/
def makedirs_and_dispatch (opts : CLIOptions) (env : Env)
    (params : List (String × String))
    (denovo_otu_picking_method reference_otu_picking_method : String) :
    RunResult :=
  match env.makedirs_error with
  | some _ =>
    if opts.force then
      dispatch_result opts env params
        denovo_otu_picking_method reference_otu_picking_method
    else makedirs_error_result env
  | none =>
    dispatch_result opts env params
      denovo_otu_picking_method reference_otu_picking_method

/-- The body of `main` (script lines 313-415), in source order: method
dispatch, parameter-file handling, jobs validation, directory creation,
then workflow dispatch.  A configuration error at any stage stops the run
there: the `outcome` is the error and no workflow invocation exists. -/
def main (opts : CLIOptions) (env : Env) : RunResult :=
  match resolve_method_binding opts.otu_picking_method with
  | none =>
    { makedirs_attempted := false
      output_dir_files := env.output_dir_files
      outcome := Except.error (MainError.option_parser_error unknown_method_message) }
  | some (denovo_otu_picking_method, reference_otu_picking_method) =>
    match params_step opts.parameter_fp env.param_file_lines with
    | Except.error e =>
      { makedirs_attempted := false
        output_dir_files := env.output_dir_files
        outcome := Except.error e }
    | Except.ok params =>
      match validate_and_set_jobs_to_start opts.jobs_to_start opts.parallel with
      | Except.error e =>
        { makedirs_attempted := false
          output_dir_files := env.output_dir_files
          outcome := Except.error e }
      | Except.ok _ =>
        makedirs_and_dispatch opts env params
          denovo_otu_picking_method reference_otu_picking_method

/-- Resolution of the optional Step-1 checkpoint pair. -/
inductive CheckpointResolution where
  | run_step1
  | use_checkpoint (otu_map_fp failures_fasta_fp : String)
  | config_error
deriving DecidableEq

/-- Modelled from the spec: the Checkpoint Resolver of the stage workflow
(`pick_subsampled_open_reference_otus` in
qiime/workflow/pick_open_reference_otus.py, which is not among this
repository's source files).  Both checkpoint paths present means skip
Step 1 and use them as its output; both absent means run Step 1 from
scratch; exactly one present is a configuration error. -/
def resolve_checkpoint (step1_otu_map_fp step1_failures_fasta_fp : Option String) :
    CheckpointResolution :=
  match step1_otu_map_fp, step1_failures_fasta_fp with
  | some m, some f => CheckpointResolution.use_checkpoint m f
  | none, none => CheckpointResolution.run_step1
  | _, _ => CheckpointResolution.config_error

/-- An external operation invoked by a stage of the workflow. -/
inductive ExternalOp where
  | clustering (stage : String)
deriving DecidableEq

/-- Failure of the stage workflow before any stage runs. -/
inductive WorkflowError where
  | incomplete_checkpoint_pair
deriving DecidableEq

/-- Modelled from the spec: the stage workflow (not among this
repository's source files) resolves the checkpoint pair before invoking
any external operation; an incomplete pair aborts the run with no
external operation invoked.  On success the stage sequence is abstracted
as the list of external clustering invocations it performs (Step 1 is
skipped exactly when the checkpoint substitutes for it). -/
def workflow_external_ops (cfg : WorkflowConfig) :
    Except WorkflowError (List ExternalOp) :=
  match resolve_checkpoint cfg.step1_otu_map_fp cfg.step1_failures_fasta_fp with
  | CheckpointResolution.config_error =>
    Except.error WorkflowError.incomplete_checkpoint_pair
  | CheckpointResolution.run_step1 =>
    Except.ok [ExternalOp.clustering "step1", ExternalOp.clustering "step2",
      ExternalOp.clustering "step3"]
  | CheckpointResolution.use_checkpoint _ _ =>
    Except.ok [ExternalOp.clustering "step2", ExternalOp.clustering "step3"]

/-!
Concrete configurations used to evaluate the model on explicit inputs.
-/

/-- A well-formed baseline configuration: one input file, valid method,
no parameter file, no checkpoint, prefilter disabled. -/
def sample_opts : CLIOptions :=
  { input_fps := ["seqs1.fna"]
    reference_fp := "refseqs.fna"
    output_dir := "ucrss"
    otu_picking_method := "uclust"
    parameter_fp := none
    prefilter_refseqs_fp := none
    new_ref_set_id := "New"
    force := false
    parallel := false
    jobs_to_start := none
    percent_subsample := 1
    prefilter_percent_id := 0
    step1_otu_map_fp := none
    step1_failures_fasta_fp := none
    suppress_step4 := false
    min_otu_size := 2
    suppress_taxonomy_assignment := false
    suppress_align_and_tree := false
    verbose := false }

/-- A benign environment: fresh output directory, no parameter file. -/
def sample_env : Env :=
  { param_file_lines := none
    makedirs_error := none
    output_dir_files := [] }

/-- The invocation `main` performs on the baseline configuration. -/
def sample_inv : WorkflowInvocation :=
  dispatch_workflow sample_opts [] none "uclust" "uclust_ref" false

/-- Baseline with only the Step-1 OTU map supplied (incomplete pair). -/
def c1_opts : CLIOptions :=
  { sample_opts with step1_otu_map_fp := some "step1_otus.txt" }

/-- The invocation `main` performs on `c1_opts`. -/
def c1_inv : WorkflowInvocation :=
  dispatch_workflow c1_opts [] none "uclust" "uclust_ref" false

/-- An environment whose output directory already exists. -/
def c2_env : Env :=
  { param_file_lines := none
    makedirs_error := some OSErrorKind.eexist
    output_dir_files := ["old.txt"] }

/-- Baseline with the force-overwrite flag set. -/
def c2_force_opts : CLIOptions := { sample_opts with force := true }

/-- Baseline with a non-zero prefilter identity. -/
def c4_opts : CLIOptions := { sample_opts with prefilter_percent_id := 2 }

/-- The invocation `main` performs on `c4_opts`. -/
def c4_inv : WorkflowInvocation :=
  dispatch_workflow c4_opts [] (some 2) "uclust" "uclust_ref" false

/-- Baseline with two input filepaths (iterative mode). -/
def c5_opts : CLIOptions :=
  { sample_opts with input_fps := ["seqs1.fna", "seqs2.fna"] }

/-- The invocation `main` performs on `c5_opts`. -/
def c5_inv : WorkflowInvocation :=
  dispatch_workflow c5_opts [] none "uclust" "uclust_ref" false

/-- Baseline with a subsample percent of 2, far outside (0,1]. -/
def c6_opts : CLIOptions := { sample_opts with percent_subsample := 2 }

/-- The invocation `main` performs on `c6_opts`. -/
def c6_inv : WorkflowInvocation :=
  dispatch_workflow c6_opts [] none "uclust" "uclust_ref" false

/-- Baseline with taxonomy assignment suppressed. -/
def c7_opts : CLIOptions :=
  { sample_opts with suppress_taxonomy_assignment := true }

/-- The invocation `main` performs on `c7_opts`. -/
def c7_inv : WorkflowInvocation :=
  dispatch_workflow c7_opts [] none "uclust" "uclust_ref" false

/-- Baseline with the force flag set, for the forced-makedirs claim. -/
def c9_opts : CLIOptions := { sample_opts with force := true }

/-- An environment where `makedirs` fails with permission denied on a
directory that holds a pre-existing file. -/
def c9_env_bad : Env :=
  { param_file_lines := none
    makedirs_error := some OSErrorKind.eacces
    output_dir_files := ["old.txt"] }

/-- Baseline with a parameter filepath supplied. -/
def c10_opts : CLIOptions :=
  { sample_opts with parameter_fp := some "params.txt" }

/-!
Helper lemmas shared by the claim theorems.
-/

/-- Makedirs never removes files, whatever its outcome. -/
theorem files_after_makedirs_id (files : List String)
    (result : Option OSErrorKind) :
    files_after_makedirs files result = files := by
  cases result <;> rfl

/-- Any successful run of `main` performed the stages in order: a valid
method binding, a successful parameter parse, a successful jobs
validation, and the invocation produced is exactly the workflow dispatch
on those values. -/
theorem main_ok_shape (opts : CLIOptions) (env : Env) (inv : WorkflowInvocation)
    (h : (main opts env).outcome = Except.ok inv) :
    ∃ params denovo reference,
      resolve_method_binding opts.otu_picking_method = some (denovo, reference) ∧
      params_step opts.parameter_fp env.param_file_lines = Except.ok params ∧
      inv = dispatch_workflow opts params
        (prefilter_percent_id_arg opts.prefilter_percent_id)
        denovo reference false := by
  unfold main at h
  split at h
  · exact absurd h (by simp)
  next denovo reference hm =>
    split at h
    next e hp => exact absurd h (by simp)
    next params hp =>
      split at h
      next e hj => exact absurd h (by simp)
      next hj =>
        refine ⟨params, denovo, reference, hm, hp, ?_⟩
        unfold makedirs_and_dispatch at h
        split at h
        next k hk =>
          by_cases hf : opts.force
          · rw [if_pos hf] at h
            simpa [dispatch_result] using h.symm
          · rw [if_neg hf] at h
            exact absurd h (by simp [makedirs_error_result])
        next hk =>
          simpa [dispatch_result] using h.symm

/-- The two call sites forward identical keyword-argument records. -/
theorem call_configs_identical (opts : CLIOptions)
    (params : List (String × String)) (command_handler : CommandHandler)
    (prefilter_percent_id : Option Rat)
    (denovo_otu_picking_method reference_otu_picking_method : String)
    (status_update_callback : StatusUpdateCallback) :
    single_call_config opts params command_handler prefilter_percent_id
        denovo_otu_picking_method reference_otu_picking_method
        status_update_callback =
      iterative_call_config opts params command_handler prefilter_percent_id
        denovo_otu_picking_method reference_otu_picking_method
        status_update_callback := rfl

/-- Whichever driver is dispatched, the forwarded configuration record is
the one of the single-input call site (the two records coincide). -/
theorem dispatch_cfg (opts : CLIOptions) (params : List (String × String))
    (prefilter_percent_id : Option Rat)
    (denovo_otu_picking_method reference_otu_picking_method : String)
    (print_only : Bool) :
    (dispatch_workflow opts params prefilter_percent_id
        denovo_otu_picking_method reference_otu_picking_method
        print_only).cfg =
      single_call_config opts params (select_command_handler print_only)
        prefilter_percent_id denovo_otu_picking_method
        reference_otu_picking_method
        (select_status_update_callback opts.verbose) := by
  unfold dispatch_workflow
  split <;> rfl

/-- Every successful run uses the serial command handler: `print_only` is
hard-coded to `False` in the script. -/
theorem handler_serial (opts : CLIOptions) (env : Env) (inv : WorkflowInvocation)
    (h : (main opts env).outcome = Except.ok inv) :
    inv.cfg.command_handler = CommandHandler.call_commands_serially := by
  obtain ⟨params, denovo, reference, hm, hp, hinv⟩ := main_ok_shape opts env inv h
  rw [hinv, dispatch_cfg]
  rfl

/-- Every successful run forwards `percent_subsample` unchanged. -/
theorem percent_forwarded (opts : CLIOptions) (env : Env) (inv : WorkflowInvocation)
    (h : (main opts env).outcome = Except.ok inv) :
    inv.cfg.percent_subsample = opts.percent_subsample := by
  obtain ⟨params, denovo, reference, hm, hp, hinv⟩ := main_ok_shape opts env inv h
  rw [hinv, dispatch_cfg]
  rfl

/-- Every successful run forwards the two checkpoint paths unchanged. -/
theorem checkpoint_paths_forwarded (opts : CLIOptions) (env : Env)
    (inv : WorkflowInvocation)
    (h : (main opts env).outcome = Except.ok inv) :
    inv.cfg.step1_otu_map_fp = opts.step1_otu_map_fp ∧
      inv.cfg.step1_failures_fasta_fp = opts.step1_failures_fasta_fp := by
  obtain ⟨params, denovo, reference, hm, hp, hinv⟩ := main_ok_shape opts env inv h
  rw [hinv, dispatch_cfg]
  exact ⟨rfl, rfl⟩

/-- No run of `main` ever removes a pre-existing file of the output
directory. -/
theorem files_preserved (opts : CLIOptions) (env : Env) :
    (main opts env).output_dir_files = env.output_dir_files := by
  unfold main
  split
  · rfl
  next denovo reference hm =>
    split
    next e hp => rfl
    next params hp =>
      split
      next e hj => rfl
      next hj =>
        unfold makedirs_and_dispatch
        split
        next k hk =>
          by_cases hf : opts.force
          · rw [if_pos hf]
            simp [dispatch_result, files_after_makedirs_id]
          · rw [if_neg hf]
            simp [makedirs_error_result, files_after_makedirs_id]
        next hk =>
          simp [dispatch_result, files_after_makedirs_id]

/-- With the force flag set, the run result does not depend on whether
`makedirs` raised an `OSError`, of any kind. -/
theorem main_forced_makedirs_irrelevant (opts : CLIOptions)
    (pl : Option (List String)) (k : OSErrorKind) (files : List String)
    (hf : opts.force = true) :
    main opts ⟨pl, some k, files⟩ = main opts ⟨pl, none, files⟩ := by
  unfold main makedirs_and_dispatch dispatch_result files_after_makedirs
  simp only [hf, if_true]

/-!
Claim theorems.
-/

/-- C1: when exactly one of the two Step-1 checkpoint paths is supplied,
the run reaches the stage workflow with that incomplete pair forwarded
unchanged, and the workflow's checkpoint resolution fails with a
configuration error before any external operation is invoked (no
external-operation list is produced). -/
theorem C1_incomplete_checkpoint_fails_fast (opts : CLIOptions) (env : Env)
    (inv : WorkflowInvocation)
    (h : (main opts env).outcome = Except.ok inv)
    (hone : opts.step1_otu_map_fp.isSome ≠ opts.step1_failures_fasta_fp.isSome) :
    workflow_external_ops inv.cfg =
      Except.error WorkflowError.incomplete_checkpoint_pair := by
  obtain ⟨hm, hf⟩ := checkpoint_paths_forwarded opts env inv h
  unfold workflow_external_ops
  rw [hm, hf]
  rcases ho : opts.step1_otu_map_fp with _ | m <;>
    rcases ht : opts.step1_failures_fasta_fp with _ | f <;>
    rw [ho, ht] at hone <;> simp_all [resolve_checkpoint]

/-- C1 witness: supplying only the Step-1 OTU map on an otherwise valid
run makes the workflow abort with the incomplete-checkpoint error. -/
theorem C1_witness :
    (main c1_opts sample_env).outcome = Except.ok c1_inv ∧
      workflow_external_ops c1_inv.cfg =
        Except.error WorkflowError.incomplete_checkpoint_pair :=
  ⟨rfl, C1_incomplete_checkpoint_fails_fast c1_opts sample_env c1_inv rfl (by decide)⟩

/-- C2: on a run whose configuration stages all pass and whose output
directory already exists, the script errors out and leaves the directory
content untouched when the force flag is absent (the error outcome means
no workflow function, hence no external operation, is invoked), and
proceeds into the same directory when the force flag is set. -/
theorem C2_output_dir_preflight (opts : CLIOptions) (env : Env)
    (params : List (String × String)) (denovo reference : String)
    (hm : resolve_method_binding opts.otu_picking_method = some (denovo, reference))
    (hp : params_step opts.parameter_fp env.param_file_lines = Except.ok params)
    (hj : validate_and_set_jobs_to_start opts.jobs_to_start opts.parallel = Except.ok ())
    (hk : env.makedirs_error = some OSErrorKind.eexist) :
    (opts.force = false →
      (main opts env).outcome =
          Except.error (MainError.option_parser_error dir_exists_message) ∧
        (main opts env).output_dir_files = env.output_dir_files) ∧
    (opts.force = true →
      ∃ inv, (main opts env).outcome = Except.ok inv ∧
        inv.cfg.output_dir = opts.output_dir) := by
  constructor
  · intro hf
    unfold main makedirs_and_dispatch
    simp only [hm, hp, hj, hk, hf, makedirs_error_result, files_after_makedirs_id]
    exact ⟨rfl, rfl⟩
  · intro hf
    refine ⟨dispatch_workflow opts params
        (prefilter_percent_id_arg opts.prefilter_percent_id) denovo reference
        false, ?_, ?_⟩
    · unfold main makedirs_and_dispatch
      simp only [hm, hp, hj, hk, hf, if_true, dispatch_result]
    · rw [dispatch_cfg]; rfl

/-- C2 witness: with everything else valid and an already-existing output
directory, the unforced run errors with the directory message and keeps
the old file, while the forced run proceeds into the same directory. -/
theorem C2_witness :
    ((main sample_opts c2_env).outcome =
        Except.error (MainError.option_parser_error dir_exists_message) ∧
      (main sample_opts c2_env).output_dir_files = c2_env.output_dir_files) ∧
    (∃ inv, (main c2_force_opts c2_env).outcome = Except.ok inv ∧
      inv.cfg.output_dir = c2_force_opts.output_dir) :=
  ⟨(C2_output_dir_preflight sample_opts c2_env [] "uclust" "uclust_ref"
      rfl rfl rfl rfl).1 rfl,
   (C2_output_dir_preflight c2_force_opts c2_env [] "uclust" "uclust_ref"
      rfl rfl rfl rfl).2 rfl⟩

/-- C3: the OTU-picking selector is the closed enumeration
`[uclust, usearch61]`: `uclust` maps to the binding pair
`(uclust, uclust_ref)`, `usearch61` to `(usearch61, usearch61_ref)`,
values inside the enumeration pass option parsing, and every other value
is rejected at option parsing, before `main`'s body runs. -/
theorem C3_method_selector_enum :
    resolve_method_binding "uclust" = some ("uclust", "uclust_ref") ∧
    resolve_method_binding "usearch61" = some ("usearch61", "usearch61_ref") ∧
    (∀ value : String, value ∈ otu_picking_method_choices →
      parse_choice otu_picking_method_choices value = some value) ∧
    (∀ value : String, value ∉ otu_picking_method_choices →
      parse_choice otu_picking_method_choices value = none) := by
  refine ⟨rfl, rfl, ?_, ?_⟩
  · intro value hv
    simp [parse_choice, hv]
  · intro value hv
    simp [parse_choice, hv]

/-- C3 witness: `sortmerna` is outside the enumeration and is rejected at
option parsing. -/
theorem C3_witness :
    "sortmerna" ∉ otu_picking_method_choices ∧
      parse_choice otu_picking_method_choices "sortmerna" = none :=
  ⟨by decide, C3_method_selector_enum.2.2.2 "sortmerna" (by decide)⟩

/-- C4: on every successful run the workflow receives no prefilter
identity exactly when `prefilter_percent_id` is zero, and receives the
value unchanged whenever it is non-zero. -/
theorem C4_prefilter_toggle (opts : CLIOptions) (env : Env)
    (inv : WorkflowInvocation)
    (h : (main opts env).outcome = Except.ok inv) :
    (opts.prefilter_percent_id = 0 → inv.cfg.prefilter_percent_id = none) ∧
    (opts.prefilter_percent_id ≠ 0 →
      inv.cfg.prefilter_percent_id = some opts.prefilter_percent_id) := by
  obtain ⟨params, denovo, reference, hm, hp, hinv⟩ := main_ok_shape opts env inv h
  rw [hinv, dispatch_cfg]
  constructor <;> intro h0 <;>
    simp [single_call_config, prefilter_percent_id_arg, h0]

/-- C4 witness: a zero prefilter identity is forwarded as `none`, the
non-zero identity 2 is forwarded as `some 2`. -/
theorem C4_witness :
    ((main sample_opts sample_env).outcome = Except.ok sample_inv ∧
      sample_inv.cfg.prefilter_percent_id = none) ∧
    ((main c4_opts sample_env).outcome = Except.ok c4_inv ∧
      c4_inv.cfg.prefilter_percent_id = some 2) :=
  ⟨⟨by decide, (C4_prefilter_toggle sample_opts sample_env sample_inv
      (by decide)).1 (by decide)⟩,
   ⟨by decide, (C4_prefilter_toggle c4_opts sample_env c4_inv
      (by decide)).2 (by decide)⟩⟩

/-- C5: every successful run dispatches on the number of input filepaths
(one filepath invokes the single-input driver on that file, two or more
invoke the iterative driver on the full ordered list), and the two call
sites forward identical configuration records. -/
theorem C5_driver_dispatch (opts : CLIOptions) (env : Env)
    (inv : WorkflowInvocation)
    (h : (main opts env).outcome = Except.ok inv) :
    (∀ x : String, opts.input_fps = [x] →
      ∃ cfg, inv = WorkflowInvocation.single x cfg) ∧
    (2 ≤ opts.input_fps.length →
      ∃ cfg, inv = WorkflowInvocation.iterative opts.input_fps cfg) ∧
    (∀ (params : List (String × String)) (command_handler : CommandHandler)
        (prefilter_percent_id : Option Rat) (denovo reference : String)
        (status_update_callback : StatusUpdateCallback),
      single_call_config opts params command_handler prefilter_percent_id
          denovo reference status_update_callback =
        iterative_call_config opts params command_handler
          prefilter_percent_id denovo reference status_update_callback) := by
  obtain ⟨params, denovo, reference, hm, hp, hinv⟩ := main_ok_shape opts env inv h
  refine ⟨?_, ?_, fun _ _ _ _ _ _ => rfl⟩
  · intro x hx
    rw [hinv]
    unfold dispatch_workflow
    rw [hx]
    exact ⟨_, rfl⟩
  · intro hlen
    rw [hinv]
    unfold dispatch_workflow
    rcases hfps : opts.input_fps with _ | ⟨a, _ | ⟨b, t⟩⟩
    · exact ⟨_, rfl⟩
    · rw [hfps] at hlen
      simp at hlen
    · exact ⟨_, rfl⟩

/-- C5 witness: two input filepaths invoke the iterative driver on the
full list. -/
theorem C5_witness :
    2 ≤ c5_opts.input_fps.length ∧
      ∃ cfg, c5_inv = WorkflowInvocation.iterative c5_opts.input_fps cfg :=
  ⟨by decide,
    (C5_driver_dispatch c5_opts sample_env c5_inv rfl).2.1 (by decide)⟩

/-- C6 counterexample: a run with `percent_subsample = 2` proceeds past
configuration and invokes the workflow with percent 2, which is not in
(0,1]; no rejection happens. -/
theorem C6_counterexample :
    (main c6_opts sample_env).outcome = Except.ok c6_inv ∧
      c6_inv.cfg.percent_subsample = 2 ∧
      ¬ c6_inv.cfg.percent_subsample ≤ 1 := by
  have h2 : c6_inv.cfg.percent_subsample = 2 := rfl
  refine ⟨rfl, h2, ?_⟩
  rw [h2]
  norm_num

/-- C6 (amended): the script performs no range validation of
`percent_subsample`; every successful run forwards the parsed value
unchanged to the workflow, whatever it is. -/
theorem C6_percent_forwarded_unvalidated (opts : CLIOptions) (env : Env)
    (inv : WorkflowInvocation)
    (h : (main opts env).outcome = Except.ok inv) :
    inv.cfg.percent_subsample = opts.percent_subsample :=
  percent_forwarded opts env inv h

/-- C6 witness: the out-of-range percent 2 is forwarded unchanged. -/
theorem C6_witness :
    (main c6_opts sample_env).outcome = Except.ok c6_inv ∧
      c6_inv.cfg.percent_subsample = c6_opts.percent_subsample :=
  ⟨rfl, C6_percent_forwarded_unvalidated c6_opts sample_env c6_inv rfl⟩

/-- C7: every successful run passes `run_assign_tax` as the negation of
`suppress_taxonomy_assignment` and `run_align_and_tree` as the negation
of `suppress_align_and_tree`, and both suppression flags default to
false. -/
theorem C7_suppression_flags (opts : CLIOptions) (env : Env)
    (inv : WorkflowInvocation)
    (h : (main opts env).outcome = Except.ok inv) :
    inv.cfg.run_assign_tax = !opts.suppress_taxonomy_assignment ∧
      inv.cfg.run_align_and_tree = !opts.suppress_align_and_tree ∧
      default_suppress_taxonomy_assignment = false ∧
      default_suppress_align_and_tree = false := by
  obtain ⟨params, denovo, reference, hm, hp, hinv⟩ := main_ok_shape opts env inv h
  rw [hinv, dispatch_cfg]
  exact ⟨rfl, rfl, rfl, rfl⟩

/-- C7 witness: suppressing taxonomy assignment alone turns off the
taxonomy step and leaves alignment and tree building on. -/
theorem C7_witness :
    (main c7_opts sample_env).outcome = Except.ok c7_inv ∧
      c7_inv.cfg.run_assign_tax = false ∧
      c7_inv.cfg.run_align_and_tree = true := by
  have h := C7_suppression_flags c7_opts sample_env c7_inv rfl
  exact ⟨rfl, h.1, h.2.1⟩

/-- C8 counterexample: no configuration of the program selects the
dry-run command handler — every successful run uses the serial executor,
because `print_only` is hard-coded to `False` and the option that would
set it is commented out. -/
theorem C8_counterexample :
    ¬ ∃ (opts : CLIOptions) (env : Env) (inv : WorkflowInvocation),
        (main opts env).outcome = Except.ok inv ∧
          inv.cfg.command_handler = CommandHandler.print_commands := by
  rintro ⟨opts, env, inv, h, hch⟩
  rw [handler_serial opts env inv h] at hch
  exact CommandHandler.noConfusion hch

/-- C8 (amended): dry-run mode is not selectable from the invocation
surface; the command handler of every successful run is the serial
executor. -/
theorem C8_handler_always_serial (opts : CLIOptions) (env : Env)
    (inv : WorkflowInvocation)
    (h : (main opts env).outcome = Except.ok inv) :
    inv.cfg.command_handler = CommandHandler.call_commands_serially :=
  handler_serial opts env inv h

/-- C8 witness: the baseline run uses the serial executor. -/
theorem C8_witness :
    (main sample_opts sample_env).outcome = Except.ok sample_inv ∧
      sample_inv.cfg.command_handler = CommandHandler.call_commands_serially :=
  ⟨rfl, C8_handler_always_serial sample_opts sample_env sample_inv rfl⟩

/-- C9: with the force flag set, the run result is the same whatever
`OSError` kind `makedirs` raised (all are silently ignored, the pipeline
proceeds as if the directory were ready), and no run ever removes a
pre-existing file of the output directory. -/
theorem C9_force_ignores_all_oserrors (opts : CLIOptions) (env : Env)
    (k : OSErrorKind) (hf : opts.force = true) :
    main opts { env with makedirs_error := some k } =
        main opts { env with makedirs_error := none } ∧
      (main opts env).output_dir_files = env.output_dir_files := by
  obtain ⟨pl, me, files⟩ := env
  exact ⟨main_forced_makedirs_irrelevant opts pl k files hf,
    files_preserved opts ⟨pl, me, files⟩⟩

/-- C9 witness: a forced run on which `makedirs` fails with permission
denied behaves exactly like one where it succeeded, and the pre-existing
file survives. -/
theorem C9_witness :
    c9_opts.force = true ∧
      main c9_opts { c9_env_bad with makedirs_error := some OSErrorKind.eacces } =
        main c9_opts { c9_env_bad with makedirs_error := none } ∧
      (main c9_opts c9_env_bad).output_dir_files = c9_env_bad.output_dir_files :=
  ⟨rfl, (C9_force_ignores_all_oserrors c9_opts c9_env_bad OSErrorKind.eacces rfl).1,
    (C9_force_ignores_all_oserrors c9_opts c9_env_bad OSErrorKind.eacces rfl).2⟩

/-- C10: when a parameter filepath is supplied but cannot be opened, the
run stops with an `IOError` naming that path, before the output directory
is created (`makedirs` is never attempted) and before any workflow stage
runs; when no parameter filepath is supplied, the run is identical to one
given an empty parameter file. -/
theorem C10_parameter_file_handling :
    (∀ (opts : CLIOptions) (env : Env) (fp : String),
      opts.parameter_fp = some fp → env.param_file_lines = none →
      (resolve_method_binding opts.otu_picking_method).isSome = true →
      main opts env =
        { makedirs_attempted := false
          output_dir_files := env.output_dir_files
          outcome := Except.error (MainError.io_error fp) }) ∧
    (∀ (opts : CLIOptions) (env : Env) (fp : String),
      opts.parameter_fp = none →
      main opts env =
        main { opts with parameter_fp := some fp }
          { env with param_file_lines := some [] }) := by
  constructor
  · intro opts env fp hfp hpl hm
    rw [Option.isSome_iff_exists] at hm
    obtain ⟨⟨denovo, reference⟩, hm⟩ := hm
    unfold main params_step
    simp only [hm, hfp, hpl]
  · intro opts env fp hfp
    unfold main makedirs_and_dispatch dispatch_result makedirs_error_result
      files_after_makedirs dispatch_workflow single_call_config
      iterative_call_config select_command_handler
      select_status_update_callback prefilter_percent_id_arg params_step
    dsimp only
    rw [hfp]

/-- C10 witness: an unopenable parameter file stops the baseline run with
the `IOError` naming it, before `makedirs`; and the baseline run without
a parameter file equals the run with an empty parameter file. -/
theorem C10_witness :
    (main c10_opts sample_env =
      { makedirs_attempted := false
        output_dir_files := sample_env.output_dir_files
        outcome := Except.error (MainError.io_error "params.txt") }) ∧
    (main sample_opts sample_env =
      main { sample_opts with parameter_fp := some "params.txt" }
        { sample_env with param_file_lines := some [] }) :=
  ⟨C10_parameter_file_handling.1 c10_opts sample_env "params.txt" rfl rfl rfl,
   C10_parameter_file_handling.2 sample_opts sample_env "params.txt" rfl⟩

end PickOpenReferenceOtus
